import Mathlib

/-!
# Verification of the AI suggestion engine (`src/ai_suggestion_engine.js`)

A shallow embedding of the `AISuggestionEngine` class.  Modelling
conventions, uniform throughout the file:

* JavaScript numbers that hold integers (severities, confidence values,
  epoch-millisecond timestamps) are modelled as `ℤ`; fractional scores and
  thresholds are modelled as `ℚ`.  For the concrete pattern table of the
  source (symptom lists of length 4 and 5, thresholds 0.5/0.6/0.7 compared
  against scores of the form k/n with n ≤ 10) rational comparison agrees
  with IEEE-double comparison at every reachable value.
* `a.includes(b)` on strings is contiguous-substring containment, modelled
  as `b.data <:+: a.data` on the underlying character lists.
* `Math.round` rounds half toward +∞, exactly the Mathlib function `round`
  (`round x = ⌊x + 1/2⌋`).
* The `this.healthKnowledge` field of the engine (set asynchronously by
  `loadHealthKnowledge`) is passed explicitly as an `Option HealthKnowledge`
  argument; `none` models the not-yet-loaded state.
* `Date` arithmetic (`cutoff.setDate(cutoff.getDate() - n)`) is modelled on
  integer epoch milliseconds as subtracting `n * 86400000`; `now` is passed
  explicitly.
* Purely descriptive nested payloads that no code path reads back
  (`healthInfo`, and all of `diseaseInfo` except `stage`) are omitted from
  the `Suggestion` record; the `stage` string is kept because
  `determineStage` computes it.
* JS `Array.prototype.sort` is required to be stable; it is modelled by
  insertion sort, which is stable, and for a total preorder comparator any
  two stable sorts agree elementwise.
-/

/-- A logged symptom record, as consumed by the suggestion engine: the
canonical slug `type`, the 1–10 `severity`, and the epoch-millisecond
`timestamp`. -/
structure SymptomRecord where
  type : String
  severity : ℤ
  timestamp : ℤ
deriving DecidableEq, Repr

/-- A suggestion object as produced by the engine.  Text-only nested
payloads (`healthInfo`, `diseaseInfo` minus `stage`) are omitted; fields
that some constructors leave absent are `Option`s / default-empty lists. -/
structure Suggestion where
  id : String
  title : String
  description : String
  priority : String
  category : String
  reasoning : Option String := none
  actions : List String := []
  medications : List String := []
  timeframe : Option String := none
  confidence : Option ℤ := none
  stage : Option String := none
deriving DecidableEq, Repr

/-- JS `a.includes(b)`: `b` occurs as a contiguous substring of `a`. -/
def strIncludes (a b : String) : Bool :=
  decide (b.data <:+: a.data)

/-- The bidirectional substring test applied between one user slug and one
disease-pattern slug (`symptom.includes(diseaseSymptom) ||
diseaseSymptom.includes(symptom)`, source lines 156 and 263). -/
def slugMatches (symptom diseaseSymptom : String) : Bool :=
  strIncludes symptom diseaseSymptom || strIncludes diseaseSymptom symptom

/-- Source `countMatches` (source lines 153–159): the number of user slugs that
match at least one disease slug bidirectionally. -/
def countMatches (userSymptoms diseaseSymptoms : List String) : ℕ :=
  (userSymptoms.filter fun symptom =>
    diseaseSymptoms.any fun diseaseSymptom =>
      slugMatches symptom diseaseSymptom).length

/-- Source `calculatePatternMatch` (source lines 260–268): matched count divided by
the symptom-slug count of the pattern. -/
def calculatePatternMatch (userSymptoms diseaseSymptoms : List String) : ℚ :=
  (countMatches userSymptoms diseaseSymptoms : ℚ) / (diseaseSymptoms.length : ℚ)

/-- A disease pattern from `getDiseasePatterns` (source lines 164–255).
`key` is the object key (`flu`, `cold`, …).  The descriptive fields that
only feed the omitted `healthInfo`/`diseaseInfo` payloads (`causes`,
`progression`, `prevention`, `warningSigns`, `riskFactors`,
`complications`, `prognosis`) are not modelled. -/
structure DiseasePattern where
  key : String
  displayName : String
  symptoms : List String
  threshold : ℚ
  confidenceMultiplier : ℚ
  severity : String
  description : String
  earlySymptoms : List String
  recommendedActions : List String
  timeframe : String
deriving DecidableEq, Repr

/-- The `flu` pattern (source lines 166–187). -/
def fluPattern : DiseasePattern where
  key := "flu"
  displayName := "Influenza (Flu)"
  symptoms := ["fever", "headache", "muscle-aches", "fatigue", "cough"]
  threshold := 6/10
  confidenceMultiplier := 85
  severity := "medium"
  description := "A viral infection that affects the respiratory system and causes systemic symptoms."
  earlySymptoms := ["fatigue", "mild-headache", "body-aches"]
  recommendedActions :=
    ["Rest and stay hydrated",
     "Take antiviral medication if prescribed within 48 hours",
     "Monitor symptoms and seek care if worsening"]
  timeframe := "7-10 days"

/-- The `cold` pattern (source lines 188–209). -/
def coldPattern : DiseasePattern where
  key := "cold"
  displayName := "Common Cold"
  symptoms := ["runny-nose", "sneezing", "sore-throat", "mild-headache", "cough"]
  threshold := 5/10
  confidenceMultiplier := 80
  severity := "low"
  description := "A viral upper respiratory tract infection causing mild symptoms."
  earlySymptoms := ["scratchy-throat", "sneezing", "runny-nose"]
  recommendedActions :=
    ["Rest and drink plenty of fluids",
     "Use saline nasal rinses",
     "Consider over-the-counter symptom relief"]
  timeframe := "7-10 days"

/-- The `migraine` pattern (source lines 210–231). -/
def migrainePattern : DiseasePattern where
  key := "migraine"
  displayName := "Migraine Headache"
  symptoms := ["severe-headache", "nausea", "light-sensitivity", "sound-sensitivity"]
  threshold := 7/10
  confidenceMultiplier := 90
  severity := "medium"
  description := "A neurological condition causing severe, recurring headaches with associated symptoms."
  earlySymptoms := ["mild-headache", "mood-changes", "food-cravings", "neck-stiffness"]
  recommendedActions :=
    ["Rest in dark, quiet room",
     "Apply cold or warm compress",
     "Take prescribed migraine medication early"]
  timeframe := "4-72 hours per episode"

/-- The `gastroenteritis` pattern (source lines 232–253). -/
def gastroenteritisPattern : DiseasePattern where
  key := "gastroenteritis"
  displayName := "Gastroenteritis (Stomach Bug)"
  symptoms := ["nausea", "vomiting", "diarrhea", "abdominal-pain", "fever"]
  threshold := 6/10
  confidenceMultiplier := 85
  severity := "medium"
  description := "Inflammation of the stomach and intestines causing digestive symptoms."
  earlySymptoms := ["mild-nausea", "loss-of-appetite", "mild-abdominal-discomfort"]
  recommendedActions :=
    ["Stay hydrated with clear fluids",
     "Follow BRAT diet when tolerated",
     "Rest and avoid dairy/fatty foods"]
  timeframe := "1-3 days for viral, longer for bacterial"

/-- Source `getDiseasePatterns` (source lines 164–255) in `Object.entries`
insertion order. -/
def getDiseasePatterns : List DiseasePattern :=
  [fluPattern, coldPattern, migrainePattern, gastroenteritisPattern]

/-- Source `determineStage` (source lines 286–302).  Counting here is exact list
membership (`Array.prototype.includes`), unlike the bidirectional
substring matching.  Every pattern in the table has an `earlySymptoms`
array, so the JS truthiness guard `pattern.earlySymptoms &&` is always
taken.  The float literal `0.7` is modelled as `7/10`. -/
def determineStage (symptoms : List String) (pattern : DiseasePattern) : String :=
  let earlySymptomCount := (symptoms.filter fun s => pattern.earlySymptoms.contains s).length
  let totalSymptomCount := (symptoms.filter fun s => pattern.symptoms.contains s).length
  if 0 < earlySymptomCount ∧ totalSymptomCount ≤ 2 then
    "Early stage - symptoms just beginning"
  else if (pattern.symptoms.length : ℚ) * (7/10) ≤ (totalSymptomCount : ℚ) then
    "Active stage - full symptom presentation"
  else
    "Developing stage - symptoms progressing"

/-- The critical-symptom slug set of the Emergency Assessor (source
line 70). -/
def criticalSymptomTypes : List String :=
  ["chest-pain", "shortness-breath", "severe-headache"]

/-- Source `getEmergencyReasoning` (source lines 529–537): one templated sentence
per triggering record, joined by `". "`. -/
def getEmergencyReasoning (symptoms : List SymptomRecord) : String :=
  String.intercalate ". " <| symptoms.map fun s =>
    if 8 ≤ s.severity then
      "Severity level " ++ toString s.severity ++ "/10 indicates significant distress"
    else if s.type = "chest-pain" then
      "Chest pain can indicate serious cardiac or pulmonary conditions"
    else if s.type = "shortness-breath" then
      "Breathing difficulties require immediate evaluation"
    else
      "High-risk symptom requiring professional assessment"

/-- Source `assessEmergencySymptoms` (source lines 66–92). -/
def assessEmergencySymptoms (symptoms : List SymptomRecord) : List Suggestion :=
  let emergencySymptoms := symptoms.filter fun s =>
    decide (8 ≤ s.severity) || criticalSymptomTypes.contains s.type
  if 0 < emergencySymptoms.length then
    [{ id := "emergency_care"
       title := "🚨 Seek Immediate Medical Attention"
       description := "You have symptoms that may require urgent medical care."
       reasoning := some (getEmergencyReasoning emergencySymptoms)
       priority := "critical"
       category := "emergency"
       actions :=
         ["Call emergency services if severe",
          "Visit emergency room",
          "Contact your healthcare provider immediately"]
       timeframe := some "Immediate"
       confidence := some 95 }]
  else []

/-- The recency test `new Date(s.timestamp) >= cutoff` where `cutoff` is
`days` days before `now` (source lines 100–105 and 309–314), on epoch
milliseconds. -/
def recentWithin (days now : ℤ) (s : SymptomRecord) : Bool :=
  decide (now - days * 86400000 ≤ s.timestamp)

/-- An early-warning pattern from `detectEarlySymptoms` (source lines
317–333). -/
structure EarlyPattern where
  key : String
  symptoms : List String
  warning : String
  prevention : List String
deriving DecidableEq, Repr

/-- The early-warning pattern table (source lines 317–333), in insertion
order. -/
def getEarlyPatterns : List EarlyPattern :=
  [{ key := "respiratory_infection"
     symptoms := ["scratchy-throat", "mild-cough", "runny-nose"]
     warning := "Early signs of respiratory infection"
     prevention := ["Increase fluid intake", "Get extra rest", "Consider zinc supplements"] },
   { key := "digestive_issues"
     symptoms := ["mild-nausea", "loss-of-appetite", "mild-abdominal-discomfort"]
     warning := "Early digestive system disturbance"
     prevention := ["Eat bland foods", "Stay hydrated", "Avoid dairy and spicy foods"] },
   { key := "stress_response"
     symptoms := ["mild-headache", "fatigue", "muscle-tension"]
     warning := "Early stress-related symptoms"
     prevention := ["Practice relaxation techniques", "Ensure adequate sleep", "Consider stress management"] }]

/-- The records among `recentSymptoms` matching one early pattern
(source lines 336–338: `s.type.includes(early) || early.includes(s.type)`). -/
def earlyMatches (recentSymptoms : List SymptomRecord) (info : EarlyPattern) : List SymptomRecord :=
  recentSymptoms.filter fun s =>
    info.symptoms.any fun early => strIncludes s.type early || strIncludes early s.type

/-- The suggestion pushed for one firing early pattern (source lines
341–351). -/
def mkEarlyWarning (matched : List SymptomRecord) (info : EarlyPattern) : Suggestion where
  id := "early_warning_" ++ info.key
  title := "⚠️ Early Warning: " ++ info.warning
  description := "Your recent symptoms suggest the early stages of a developing condition."
  reasoning := some ("The combination of " ++
    String.intercalate ", " (matched.map fun m => m.type) ++
    " in recent days suggests " ++ info.warning ++
    ". Early intervention can help prevent progression.")
  priority := "medium"
  category := "early_warning"
  actions := info.prevention
  timeframe := some "Next 24-48 hours"
  confidence := some 70

/-- Source `detectEarlySymptoms` (source lines 307–356): over the 3-day-recent
records, emit one suggestion per early pattern with at least two matches. -/
def detectEarlySymptoms (now : ℤ) (symptoms : List SymptomRecord) : List Suggestion :=
  let recentSymptoms := symptoms.filter (recentWithin 3 now)
  (getEarlyPatterns.filter fun info =>
      2 ≤ (earlyMatches recentSymptoms info).length).map fun info =>
    mkEarlyWarning (earlyMatches recentSymptoms info) info

/-- Source `getDiseaseReasoning` (source lines 273–281). -/
def getDiseaseReasoning (symptoms : List String) (pattern : DiseasePattern) : String :=
  let matchedSymptoms := symptoms.filter fun symptom =>
    pattern.symptoms.any fun diseaseSymptom => slugMatches symptom diseaseSymptom
  "Based on your symptoms (" ++ String.intercalate ", " matchedSymptoms ++
    "), there\u0027s a pattern consistent with " ++ pattern.displayName ++ ". " ++
    pattern.description ++
    " This assessment is based on symptom correlation analysis and medical knowledge patterns."

/-- The disease-prediction suggestion pushed for one pattern passing both
gates (source lines 118–142).  `confidence = round(min(95, matchScore *
confidenceMultiplier))`. -/
def mkDiseasePrediction (symptomTypes : List String) (pattern : DiseasePattern) : Suggestion where
  id := "disease_prediction_" ++ pattern.key
  title := "🔍 Potential Condition: " ++ pattern.displayName
  description := "Your symptoms suggest you may be experiencing " ++
    pattern.displayName.toLower ++ "."
  reasoning := some (getDiseaseReasoning symptomTypes pattern)
  priority := if pattern.severity = "high" then "high" else "medium"
  category := "prediction"
  actions := pattern.recommendedActions
  timeframe := some pattern.timeframe
  confidence := some (round (min 95 (calculatePatternMatch symptomTypes pattern.symptoms *
    pattern.confidenceMultiplier)))
  stage := some (determineStage symptomTypes pattern)

/-- Source `predictPotentialConditions` (source lines 97–151): for each pattern in
table order, emit a prediction when `matchScore >= threshold` and the raw
matched count is at least 2; then append the early-warning suggestions.
The source also computes a 7-day `recentSymptoms` local (lines 100–105)
that it never uses; that dead local is not modelled. -/
def predictPotentialConditions (now : ℤ) (symptoms : List SymptomRecord) : List Suggestion :=
  let symptomTypes := symptoms.map fun s => s.type
  (getDiseasePatterns.filter fun pattern =>
      decide (pattern.threshold ≤ calculatePatternMatch symptomTypes pattern.symptoms) &&
      decide (2 ≤ countMatches symptomTypes pattern.symptoms)).map
    (mkDiseasePrediction symptomTypes)
  ++ detectEarlySymptoms now symptoms

/-- The fever+headache combination suggestion of `analyzeSymptomPatterns`
(source lines 366–387). -/
def infectionPatternSuggestion : Suggestion where
  id := "infection_pattern"
  title := "🦠 Possible Infection Detected"
  description := "The combination of fever and headache suggests a possible infection."
  reasoning := some "Fever with headache is commonly associated with viral or bacterial infections. Your immune system is responding to a potential pathogen."
  priority := "high"
  category := "diagnosis"
  actions :=
    ["Monitor temperature regularly",
     "Stay hydrated and rest",
     "Consider seeing a healthcare provider if symptoms worsen"]
  timeframe := some "24-48 hours for improvement"
  confidence := some 85

/-- The cough+fever combination suggestion of `analyzeSymptomPatterns`
(source lines 389–411). -/
def respiratoryPatternSuggestion : Suggestion where
  id := "respiratory_pattern"
  title := "🫁 Respiratory Infection Likely"
  description := "Cough with fever indicates a respiratory system infection."
  reasoning := some "The respiratory system is showing signs of inflammation and infection. The cough is your body\u0027s way of clearing irritants while fever indicates immune response."
  priority := "high"
  category := "diagnosis"
  actions :=
    ["Use humidifier or steam inhalation",
     "Drink warm liquids",
     "Avoid smoke and irritants",
     "Consider medical evaluation if persistent"]
  timeframe := some "3-5 days for improvement"
  confidence := some 80

/-- Source `analyzeSymptomPatterns` (source lines 361–414): two fixed symptom
combinations checked by exact membership on the type slugs. -/
def analyzeSymptomPatterns (symptoms : List SymptomRecord) : List Suggestion :=
  let symptomTypes := symptoms.map fun s => s.type
  (if symptomTypes.contains "fever" && symptomTypes.contains "headache" then
    [infectionPatternSuggestion]
  else []) ++
  (if symptomTypes.contains "cough" && symptomTypes.contains "fever" then
    [respiratoryPatternSuggestion]
  else [])

/-- Per-symptom knowledge-base entry
(`healthKnowledge.symptoms[slug]`, see source lines 423 and 632–652).
Fields that the default table leaves absent default to empty. -/
structure SymptomKnowledge where
  description : String
  commonCauses : List String := []
  treatmentsImmediate : List String
  treatmentsPrevention : List String := []
deriving DecidableEq, Repr

/-- Per-medication knowledge-base entry
(`healthKnowledge.medications[name]`, see source lines 495 and 643–651). -/
structure MedicationInfo where
  genericName : String
  brandNames : List String
  uses : List String := []
  dosage : String
  sideEffects : List String := []
  contraindications : List String := []
deriving DecidableEq, Repr

/-- The loaded knowledge base: association lists keyed by symptom slug and
medication name. -/
structure HealthKnowledge where
  symptoms : List (String × SymptomKnowledge)
  medications : List (String × MedicationInfo)
deriving DecidableEq, Repr

/-- Source `getDefaultKnowledge` (source lines 632–652), the fallback used when
the fetch of `health_knowledge.json` fails. -/
def getDefaultKnowledge : HealthKnowledge where
  symptoms :=
    [("headache",
      { description := "Pain in the head or neck area"
        treatmentsImmediate := ["rest", "hydration", "pain reliever"]
        treatmentsPrevention := ["regular sleep", "stress management"] })]
  medications :=
    [("acetaminophen",
      { genericName := "acetaminophen"
        brandNames := ["Tylenol"]
        uses := ["pain relief"]
        dosage := "500mg every 4-6 hours" })]

/-- Source `categorizeSeverity` (source lines 558–562). -/
def categorizeSeverity (severity : ℤ) : String :=
  if severity ≤ 3 then "mild"
  else if severity ≤ 6 then "moderate"
  else "severe"

/-- Source `formatSymptomName` (source lines 564–568): capitalize each
hyphen-separated token and join with spaces. -/
def formatSymptomName (symptom : String) : String :=
  String.intercalate " " ((symptom.splitOn "-").map String.capitalize)

/-- Source `getRelevantMedications` (source lines 570–578). -/
def getRelevantMedications (symptomType : String) : List String :=
  if symptomType = "headache" then ["Acetaminophen (Tylenol)", "Ibuprofen (Advil)"]
  else if symptomType = "fever" then ["Acetaminophen (Tylenol)", "Ibuprofen (Advil)"]
  else if symptomType = "cough" then ["Dextromethorphan (Robitussin)", "Honey"]
  else if symptomType = "nausea" then ["Ginger", "Dramamine"]
  else []

/-- Source `getExpectedTimeframe` (source lines 602–610). -/
def getExpectedTimeframe (symptomType severity : String) : String :=
  if symptomType = "headache" then
    if severity = "mild" then "30-60 minutes"
    else if severity = "moderate" then "1-2 hours"
    else if severity = "severe" then "2-4 hours" else "1-3 days"
  else if symptomType = "fever" then
    if severity = "mild" then "24-48 hours"
    else if severity = "moderate" then "2-3 days"
    else if severity = "severe" then "3-5 days" else "1-3 days"
  else if symptomType = "cough" then
    if severity = "mild" then "3-5 days"
    else if severity = "moderate" then "1-2 weeks"
    else if severity = "severe" then "2-3 weeks" else "1-3 days"
  else if symptomType = "fatigue" then
    if severity = "mild" then "1-2 days"
    else if severity = "moderate" then "3-5 days"
    else if severity = "severe" then "1-2 weeks" else "1-3 days"
  else "1-3 days"

/-- Source `getManagementReasoning` (source lines 539–542). -/
def getManagementReasoning (symptom : SymptomRecord) (knowledge : SymptomKnowledge) : String :=
  "Your " ++ categorizeSeverity symptom.severity ++ " " ++ symptom.type ++
    " (" ++ knowledge.description.toLower ++
    ") can be managed with targeted interventions. The recommended treatments address the underlying causes and provide symptom relief."

/-- Source `generateSymptomManagement` (source lines 419–448): one suggestion per
symptom whose type has a knowledge-base entry. -/
def generateSymptomManagement (hk : HealthKnowledge) (symptoms : List SymptomRecord) :
    List Suggestion :=
  symptoms.filterMap fun symptom =>
    (hk.symptoms.lookup symptom.type).map fun knowledge =>
      let severity := categorizeSeverity symptom.severity
      { id := "manage_" ++ symptom.type
        title := "💊 " ++ formatSymptomName symptom.type ++ " Management"
        description := "Targeted treatment for your " ++ severity ++ " " ++ symptom.type ++ "."
        reasoning := some (getManagementReasoning symptom knowledge)
        priority := if severity = "severe" then "high" else "medium"
        category := "treatment"
        actions := knowledge.treatmentsImmediate
        medications := getRelevantMedications symptom.type
        timeframe := some (getExpectedTimeframe symptom.type severity)
        confidence := some 75 }

/-- Append an element to an accumulator unless already present: one step of
building a JS `Set` in insertion order. -/
def addUnique (acc : List String) (a : String) : List String :=
  if acc.contains a then acc else acc ++ [a]

/-- Source `getPreventiveActions` (source lines 580–589): union (in insertion
order, first occurrence kept) of the prevention lists of the symptom types
that have knowledge entries. -/
def getPreventiveActions (hk : HealthKnowledge) (symptomTypes : List String) : List String :=
  symptomTypes.foldl (fun acc t =>
    match hk.symptoms.lookup t with
    | some knowledge => knowledge.treatmentsPrevention.foldl addUnique acc
    | none => acc) []

/-- Source `generatePreventiveCare` (source lines 453–477): a single low-priority
suggestion whenever at least one symptom type is present.  The deduplicated
`symptomTypes` set (JS `[...new Set(...)]`) is built in first-occurrence
order. -/
def generatePreventiveCare (hk : HealthKnowledge) (symptoms : List SymptomRecord) :
    List Suggestion :=
  let symptomTypes := (symptoms.map fun s => s.type).foldl addUnique []
  if 0 < symptomTypes.length then
    [{ id := "preventive_care"
       title := "🛡️ Prevention Strategy"
       description := "Prevent future occurrences of your symptoms."
       reasoning := some "Based on your symptom history, these preventive measures can help reduce the likelihood of recurrence and improve your overall health."
       priority := "low"
       category := "prevention"
       actions := getPreventiveActions hk symptomTypes
       timeframe := some "Ongoing"
       confidence := some 70 }]
  else []

/-- Source `getMedicationMechanism` (source lines 544–556). -/
def getMedicationMechanism (medication symptomType : String) : String :=
  if medication = "acetaminophen" then
    if symptomType = "headache" then "blocks pain signals in the brain"
    else if symptomType = "fever" then "affects the brain\u0027s temperature control center"
    else "provides therapeutic benefit"
  else if medication = "ibuprofen" then
    if symptomType = "headache" then "reduces inflammation and blocks pain signals"
    else if symptomType = "fever" then "reduces inflammation and affects temperature regulation"
    else "provides therapeutic benefit"
  else "provides therapeutic benefit"

/-- The medication map of `generateMedicationSuggestions` (source lines
484–489). -/
def medicationMap (symptomType : String) : List String :=
  if symptomType = "headache" then ["acetaminophen", "ibuprofen"]
  else if symptomType = "fever" then ["acetaminophen", "ibuprofen"]
  else if symptomType = "cough" then ["dextromethorphan"]
  else if symptomType = "nausea" then ["ginger", "ondansetron"]
  else []

/-- Source `generateMedicationSuggestions` (source lines 482–524): for each
symptom, for each mapped medication with a knowledge-base record, one
suggestion.  `medInfo.brandNames[0]` on an empty array is JS `undefined`. -/
def generateMedicationSuggestions (hk : HealthKnowledge) (symptoms : List SymptomRecord) :
    List Suggestion :=
  symptoms.flatMap fun symptom =>
    (medicationMap symptom.type).filterMap fun medName =>
      (hk.medications.lookup medName).map fun medInfo =>
        { id := "medication_" ++ medName ++ "_" ++ symptom.type
          title := "💊 " ++ medInfo.brandNames.headD "undefined" ++
            " (" ++ medInfo.genericName ++ ")"
          description := "Over-the-counter medication for " ++ symptom.type ++ " relief."
          reasoning := some (medInfo.genericName ++ " is effective for " ++ symptom.type ++
            " because it " ++ getMedicationMechanism medName symptom.type ++ ".")
          priority := "medium"
          category := "medication"
          actions :=
            ["Take " ++ medInfo.dosage,
             "Follow package instructions",
             "Do not exceed recommended dose"]
          timeframe := some "30-60 minutes for effect"
          confidence := some 85 }

/-- Priority ranks of `prioritizeAndFormat` (source line 618).  The source
looks the rank up in an object holding exactly the keys `critical`, `high`,
`medium`, `low`; every suggestion the engine constructs carries one of
those four priorities, so the model fixes rank 3 for any other string. -/
def priorityOrder (priority : String) : ℕ :=
  if priority = "critical" then 0
  else if priority = "high" then 1
  else if priority = "medium" then 2
  else 3

/-- The comparator of `prioritizeAndFormat` as a preorder on suggestions:
`a` may come before `b` when its priority rank is not larger. -/
def suggestionLE (a b : Suggestion) : Prop :=
  priorityOrder a.priority ≤ priorityOrder b.priority

instance : DecidableRel suggestionLE := fun a b =>
  inferInstanceAs (Decidable (priorityOrder a.priority ≤ priorityOrder b.priority))

instance : IsTotal Suggestion suggestionLE :=
  ⟨fun a b => Nat.le_total (priorityOrder a.priority) (priorityOrder b.priority)⟩

instance : IsTrans Suggestion suggestionLE :=
  ⟨fun _ _ _ h h2 => Nat.le_trans h h2⟩

/-- Helper for `dedupById`, threading the set of ids already seen.  The
source keeps an element exactly when no earlier element has the same id
(`index === self.findIndex(s => s.id === item.id)`, source lines 614–616). -/
def dedupByIdAux (seen : List String) : List Suggestion → List Suggestion
  | [] => []
  | s :: rest =>
    if seen.contains s.id then dedupByIdAux seen rest
    else s :: dedupByIdAux (s.id :: seen) rest

/-- First-occurrence-wins deduplication by suggestion id (source lines
614–616). -/
def dedupById (suggestions : List Suggestion) : List Suggestion :=
  dedupByIdAux [] suggestions

/-- Source `prioritizeAndFormat` (source lines 612–620): deduplicate by id,
then sort ascending by priority rank.  JS `Array.prototype.sort` is
required to be stable and, for a comparator that induces a total preorder,
all stable sorts produce the same list; insertion sort is such a sort. -/
def prioritizeAndFormat (suggestions : List Suggestion) : List Suggestion :=
  List.insertionSort suggestionLE (dedupById suggestions)

/-- Source `getBasicSuggestions` (source lines 622–630): the placeholder
returned while the knowledge base is still loading. -/
def getBasicSuggestions : List Suggestion :=
  [{ id := "loading"
     title := "Loading Health Knowledge..."
     description := "Please wait while we load the health information database."
     priority := "low"
     category := "system" }]

/-- Source `generateIntelligentSuggestions` (source lines 27–61): the
aggregator.  `healthKnowledge` is passed explicitly (`none` = not yet
loaded), `now` is the current epoch-millisecond time used by the recency
filters. -/
def generateIntelligentSuggestions (healthKnowledge : Option HealthKnowledge) (now : ℤ)
    (symptoms : List SymptomRecord) (recentSymptoms : List SymptomRecord := []) :
    List Suggestion :=
  match healthKnowledge with
  | none => getBasicSuggestions
  | some hk =>
    let allSymptoms := symptoms ++ recentSymptoms
    let emergencySuggestions := assessEmergencySymptoms allSymptoms
    let diseasePredictions := (predictPotentialConditions now allSymptoms).filter fun s =>
      decide (60 ≤ s.confidence.getD 0)
    let patternSuggestions := analyzeSymptomPatterns allSymptoms
    let managementSuggestions := (generateSymptomManagement hk symptoms).filter fun s =>
      decide (s.priority ≠ "low") || decide (70 ≤ s.confidence.getD 0)
    let preventiveSuggestions := generatePreventiveCare hk allSymptoms
    let medicationSuggestions := generateMedicationSuggestions hk symptoms
    prioritizeAndFormat
      (emergencySuggestions ++ diseasePredictions ++ patternSuggestions ++
       managementSuggestions ++ preventiveSuggestions ++ medicationSuggestions)

/-- Transcription of the spec wording for the match score (spec section 4.2):
a user slug counts when it is a substring of, or contains, at least one
pattern slug.  Written independently of `calculatePatternMatch` so the two
can be compared. -/
def specMatchedSlugCount (userSymptoms diseaseSymptoms : List String) : ℕ :=
  userSymptoms.countP fun u =>
    decide (∃ d ∈ diseaseSymptoms, u.data <:+: d.data ∨ d.data <:+: u.data)

/-- Transcription of the spec match score (spec section 4.2): matched-slug
count divided by the total symptom-slug count of the pattern. -/
def specMatchScore (userSymptoms diseaseSymptoms : List String) : ℚ :=
  (specMatchedSlugCount userSymptoms diseaseSymptoms : ℚ) / (diseaseSymptoms.length : ℚ)

/-! ## Theorems -/

/-- C1: for every list of `SymptomRecord`s, `assessEmergencySymptoms` emits
an emergency suggestion if and only if at least one record has severity ≥ 8
or its type is in the critical-symptom set; when it fires it emits exactly
one suggestion, with priority `critical` and confidence 95. -/
theorem assessEmergencySymptoms_correct (symptoms : List SymptomRecord) :
    ((∃ s ∈ symptoms, 8 ≤ s.severity ∨ s.type ∈ criticalSymptomTypes) →
      ∃ sug, assessEmergencySymptoms symptoms = [sug] ∧
        sug.id = "emergency_care" ∧ sug.priority = "critical" ∧ sug.confidence = some 95) ∧
    ((¬ ∃ s ∈ symptoms, 8 ≤ s.severity ∨ s.type ∈ criticalSymptomTypes) →
      assessEmergencySymptoms symptoms = []) := by
  have hiff : 0 < (symptoms.filter fun s =>
      decide (8 ≤ s.severity) || criticalSymptomTypes.contains s.type).length ↔
      ∃ s ∈ symptoms, 8 ≤ s.severity ∨ s.type ∈ criticalSymptomTypes := by
    rw [List.length_pos_iff_exists_mem]
    simp [List.mem_filter]
  constructor
  · intro h
    simp only [assessEmergencySymptoms]
    rw [if_pos (hiff.mpr h)]
    exact ⟨_, rfl, rfl, rfl, rfl⟩
  · intro h
    simp only [assessEmergencySymptoms]
    rw [if_neg (fun hc => h (hiff.mp hc))]

/-- C1 witness: a single chest-pain record of severity 9 fires the
assessor, producing one critical suggestion with confidence 95. -/
theorem assessEmergencySymptoms_correct_witness :
    ∃ sug, assessEmergencySymptoms [⟨"chest-pain", 9, 0⟩] = [sug] ∧
      sug.id = "emergency_care" ∧ sug.priority = "critical" ∧ sug.confidence = some 95 :=
  (assessEmergencySymptoms_correct [⟨"chest-pain", 9, 0⟩]).1
    ⟨⟨"chest-pain", 9, 0⟩, by decide, by decide⟩

/-- C2: for every list of user slugs and every pattern slug list, the
computed match score equals the spec formula: the number of user slugs that
are a substring of, or contain, at least one pattern slug, divided by the
total symptom-slug count of the pattern. -/
theorem calculatePatternMatch_eq_spec (userSymptoms diseaseSymptoms : List String) :
    calculatePatternMatch userSymptoms diseaseSymptoms =
      specMatchScore userSymptoms diseaseSymptoms := by
  unfold calculatePatternMatch specMatchScore countMatches specMatchedSlugCount
  rw [List.countP_eq_length_filter]
  have hpred : (fun (symptom : String) =>
      diseaseSymptoms.any fun diseaseSymptom => slugMatches symptom diseaseSymptom) =
      fun u => decide (∃ d ∈ diseaseSymptoms, u.data <:+: d.data ∨ d.data <:+: u.data) := by
    funext u
    rw [Bool.eq_iff_iff]
    simp only [List.any_eq_true, slugMatches, strIncludes, Bool.or_eq_true, decide_eq_true_eq]
    exact exists_congr fun d => and_congr_right fun _ => or_comm
  rw [hpred]

/-- C7: the pattern match score is monotonic: appending one more user slug
never decreases the score against any pattern slug list. -/
theorem calculatePatternMatch_monotone (userSymptoms : List String) (x : String)
    (diseaseSymptoms : List String) :
    calculatePatternMatch userSymptoms diseaseSymptoms ≤
      calculatePatternMatch (userSymptoms ++ [x]) diseaseSymptoms := by
  unfold calculatePatternMatch
  rcases Nat.eq_zero_or_pos diseaseSymptoms.length with h | h
  · simp [h]
  · have hc : (0 : ℚ) < (diseaseSymptoms.length : ℚ) := by exact_mod_cast h
    apply (div_le_div_iff_of_pos_right hc).mpr
    have : countMatches userSymptoms diseaseSymptoms ≤
        countMatches (userSymptoms ++ [x]) diseaseSymptoms := by
      unfold countMatches
      rw [List.filter_append, List.length_append]
      exact Nat.le_add_right _ _
    exact_mod_cast this

/-- C5: `determineStage` returns the early-stage string exactly when at
least one early-symptom is matched (exact membership) and the total matched
count is at most 2; otherwise the active-stage string exactly when the
matched count reaches 70% of the pattern symptom count; otherwise the
developing-stage string. -/
theorem determineStage_cases (symptoms : List String) (pattern : DiseasePattern) :
    (determineStage symptoms pattern = "Early stage - symptoms just beginning" ↔
      ((∃ s ∈ symptoms, s ∈ pattern.earlySymptoms) ∧
        symptoms.countP (fun s => decide (s ∈ pattern.symptoms)) ≤ 2)) ∧
    (determineStage symptoms pattern = "Active stage - full symptom presentation" ↔
      (¬((∃ s ∈ symptoms, s ∈ pattern.earlySymptoms) ∧
          symptoms.countP (fun s => decide (s ∈ pattern.symptoms)) ≤ 2) ∧
        (pattern.symptoms.length : ℚ) * (7/10) ≤
          (symptoms.countP (fun s => decide (s ∈ pattern.symptoms)) : ℚ))) ∧
    (determineStage symptoms pattern = "Developing stage - symptoms progressing" ↔
      (¬((∃ s ∈ symptoms, s ∈ pattern.earlySymptoms) ∧
          symptoms.countP (fun s => decide (s ∈ pattern.symptoms)) ≤ 2) ∧
        ¬((pattern.symptoms.length : ℚ) * (7/10) ≤
          (symptoms.countP (fun s => decide (s ∈ pattern.symptoms)) : ℚ)))) := by
  have hcount : (symptoms.filter fun s => pattern.symptoms.contains s).length =
      symptoms.countP fun s => decide (s ∈ pattern.symptoms) := by
    rw [List.countP_eq_length_filter]
    congr 1
    apply List.filter_congr
    intro s _
    simp
  have hearly : (0 < (symptoms.filter fun s => pattern.earlySymptoms.contains s).length) ↔
      ∃ s ∈ symptoms, s ∈ pattern.earlySymptoms := by
    rw [List.length_pos_iff_exists_mem]
    simp [List.mem_filter]
  simp only [determineStage, hcount]
  split_ifs with h1 h2
  · have hE : (∃ s ∈ symptoms, s ∈ pattern.earlySymptoms) ∧
        symptoms.countP (fun s => decide (s ∈ pattern.symptoms)) ≤ 2 := ⟨hearly.mp h1.1, h1.2⟩
    exact ⟨⟨fun _ => hE, fun _ => rfl⟩,
      iff_of_false (by decide) fun hc => hc.1 hE,
      iff_of_false (by decide) fun hc => hc.1 hE⟩
  · have hnE : ¬((∃ s ∈ symptoms, s ∈ pattern.earlySymptoms) ∧
        symptoms.countP (fun s => decide (s ∈ pattern.symptoms)) ≤ 2) :=
      fun hc => h1 ⟨hearly.mpr hc.1, hc.2⟩
    exact ⟨iff_of_false (by decide) hnE,
      iff_of_true rfl ⟨hnE, h2⟩,
      iff_of_false (by decide) fun hc => hc.2 h2⟩
  · have hnE : ¬((∃ s ∈ symptoms, s ∈ pattern.earlySymptoms) ∧
        symptoms.countP (fun s => decide (s ∈ pattern.symptoms)) ≤ 2) :=
      fun hc => h1 ⟨hearly.mpr hc.1, hc.2⟩
    exact ⟨iff_of_false (by decide) hnE,
      iff_of_false (by decide) fun hc => h2 hc.2,
      iff_of_true rfl ⟨hnE, h2⟩⟩

/-- C5 witness: a fatigue+fever list against the flu pattern is classified
as early stage. -/
theorem determineStage_cases_witness :
    determineStage ["fatigue", "fever"] fluPattern = "Early stage - symptoms just beginning" :=
  (determineStage_cases ["fatigue", "fever"] fluPattern).1.mpr (by decide)

/-- Every suggestion emitted by `detectEarlySymptoms` carries one of the
three early-warning ids. -/
theorem mem_detectEarlySymptoms_id (now : ℤ) (symptoms : List SymptomRecord)
    (s : Suggestion) (hs : s ∈ detectEarlySymptoms now symptoms) :
    s.id ∈ ["early_warning_respiratory_infection", "early_warning_digestive_issues",
      "early_warning_stress_response"] := by
  simp only [detectEarlySymptoms, List.mem_map] at hs
  obtain ⟨info, hinfo, rfl⟩ := hs
  have hmem : info ∈ getEarlyPatterns := List.mem_of_mem_filter hinfo
  simp only [getEarlyPatterns, List.mem_cons, List.not_mem_nil, or_false] at hmem
  rcases hmem with rfl | rfl | rfl <;> simp [mkEarlyWarning]

/-- Every suggestion emitted by `detectEarlySymptoms` has category
`early_warning`. -/
theorem mem_detectEarlySymptoms_category (now : ℤ) (symptoms : List SymptomRecord)
    (s : Suggestion) (hs : s ∈ detectEarlySymptoms now symptoms) :
    s.category = "early_warning" := by
  simp only [detectEarlySymptoms, List.mem_map] at hs
  obtain ⟨info, _, rfl⟩ := hs
  rfl

/-- C3: `predictPotentialConditions` contains a prediction for a pattern of
the table only if that pattern passed both gates: match score at least the
threshold, and at least two raw matches. -/
theorem predictPotentialConditions_gates (now : ℤ) (symptoms : List SymptomRecord)
    (pattern : DiseasePattern) (hp : pattern ∈ getDiseasePatterns)
    (s : Suggestion) (hs : s ∈ predictPotentialConditions now symptoms)
    (hid : s.id = "disease_prediction_" ++ pattern.key) :
    pattern.threshold ≤ calculatePatternMatch (symptoms.map fun r => r.type) pattern.symptoms ∧
      2 ≤ countMatches (symptoms.map fun r => r.type) pattern.symptoms := by
  simp only [predictPotentialConditions, List.mem_append] at hs
  rcases hs with hs | hs
  · simp only [List.mem_map] at hs
    obtain ⟨q, hq, rfl⟩ := hs
    rw [List.mem_filter] at hq
    obtain ⟨hqmem, hqcond⟩ := hq
    simp only [Bool.and_eq_true, decide_eq_true_eq] at hqcond
    simp only [mkDiseasePrediction] at hid
    have hkey : q = pattern := by
      simp only [getDiseasePatterns, List.mem_cons, List.not_mem_nil, or_false] at hqmem hp
      rcases hqmem with rfl | rfl | rfl | rfl <;> rcases hp with rfl | rfl | rfl | rfl <;>
        first
        | rfl
        | exact absurd hid (by decide)
    rw [hkey] at hqcond
    exact hqcond
  · have hin := mem_detectEarlySymptoms_id now symptoms s hs
    rw [hid] at hin
    exfalso
    simp only [getDiseasePatterns, List.mem_cons, List.not_mem_nil, or_false] at hp
    rcases hp with rfl | rfl | rfl | rfl <;> exact absurd hin (by decide)

/-- The flu pattern passes both gates on the fever+headache+muscle-aches
input, so its prediction is a member of `predictPotentialConditions`. -/
theorem fluPrediction_mem :
    mkDiseasePrediction ["fever", "headache", "muscle-aches"] fluPattern ∈
      predictPotentialConditions 0
        [⟨"fever", 5, 0⟩, ⟨"headache", 4, 0⟩, ⟨"muscle-aches", 4, 0⟩] := by
  have h1 : countMatches ["fever", "headache", "muscle-aches"] fluPattern.symptoms = 3 := by
    decide
  have h2 : fluPattern.threshold ≤
      calculatePatternMatch ["fever", "headache", "muscle-aches"] fluPattern.symptoms := by
    unfold calculatePatternMatch
    rw [h1]
    norm_num [fluPattern]
  simp only [predictPotentialConditions, List.mem_append, List.map_cons, List.map_nil]
  left
  refine List.mem_map_of_mem _ (List.mem_filter.mpr ⟨?_, ?_⟩)
  · exact List.mem_cons_self _ _
  · simp [h1, h2]

/-- C3 witness: fever+headache+muscle-aches passes both flu gates; applying
the theorem to the emitted flu prediction recovers both gate conditions. -/
theorem predictPotentialConditions_gates_witness :
    fluPattern.threshold ≤ calculatePatternMatch
        (([⟨"fever", 5, 0⟩, ⟨"headache", 4, 0⟩, ⟨"muscle-aches", 4, 0⟩] :
          List SymptomRecord).map fun r => r.type) fluPattern.symptoms ∧
      2 ≤ countMatches
        (([⟨"fever", 5, 0⟩, ⟨"headache", 4, 0⟩, ⟨"muscle-aches", 4, 0⟩] :
          List SymptomRecord).map fun r => r.type) fluPattern.symptoms := by
  apply predictPotentialConditions_gates 0
    [⟨"fever", 5, 0⟩, ⟨"headache", 4, 0⟩, ⟨"muscle-aches", 4, 0⟩] fluPattern
    (List.mem_cons_self _ _)
    (mkDiseasePrediction ["fever", "headache", "muscle-aches"] fluPattern)
    fluPrediction_mem rfl

/-- Rounding a quantity clamped above by 95 stays at most 95. -/
theorem round_min95_le (q : ℚ) : round (min 95 q) ≤ 95 := by
  rw [round_eq]
  calc ⌊min 95 q + 1/2⌋ ≤ ⌊(95 : ℚ) + 1/2⌋ := by
        apply Int.floor_le_floor
        have := min_le_left (95 : ℚ) q
        linarith
  _ = 95 := by
        rw [Int.floor_eq_iff]
        constructor <;> norm_num

/-- C4: every category-`prediction` suggestion in the output of
`predictPotentialConditions` carries confidence
`round(min(95, matchScore * confidenceMultiplier))` for its pattern, and in
particular every such confidence is at most 95. -/
theorem diseasePrediction_confidence (now : ℤ) (symptoms : List SymptomRecord)
    (s : Suggestion) (hs : s ∈ predictPotentialConditions now symptoms)
    (hcat : s.category = "prediction") :
    (∃ pattern ∈ getDiseasePatterns,
        s.id = "disease_prediction_" ++ pattern.key ∧
        s.confidence = some (round (min 95
          (calculatePatternMatch (symptoms.map fun r => r.type) pattern.symptoms *
            pattern.confidenceMultiplier)))) ∧
    ∀ c : ℤ, s.confidence = some c → c ≤ 95 := by
  simp only [predictPotentialConditions, List.mem_append] at hs
  rcases hs with hs | hs
  · simp only [List.mem_map] at hs
    obtain ⟨q, hq, rfl⟩ := hs
    have hqmem : q ∈ getDiseasePatterns := List.mem_of_mem_filter hq
    refine ⟨⟨q, hqmem, rfl, rfl⟩, ?_⟩
    intro c hc
    have : some (round (min 95
        (calculatePatternMatch (symptoms.map fun r => r.type) q.symptoms *
          q.confidenceMultiplier))) = some c := hc
    obtain rfl := Option.some_injective _ this
    exact round_min95_le _
  · exact absurd (mem_detectEarlySymptoms_category now symptoms s hs)
      (by rw [hcat]; decide)

/-- C4 witness: the flu prediction emitted on fever+headache+muscle-aches
has the claimed confidence shape and is at most 95. -/
theorem diseasePrediction_confidence_witness :
    (∃ pattern ∈ getDiseasePatterns,
        (mkDiseasePrediction ["fever", "headache", "muscle-aches"] fluPattern).id =
          "disease_prediction_" ++ pattern.key ∧
        (mkDiseasePrediction ["fever", "headache", "muscle-aches"] fluPattern).confidence =
          some (round (min 95
            (calculatePatternMatch
              (([⟨"fever", 5, 0⟩, ⟨"headache", 4, 0⟩, ⟨"muscle-aches", 4, 0⟩] :
                List SymptomRecord).map fun r => r.type) pattern.symptoms *
              pattern.confidenceMultiplier)))) ∧
    ∀ c : ℤ, (mkDiseasePrediction ["fever", "headache", "muscle-aches"] fluPattern).confidence =
      some c → c ≤ 95 :=
  diseasePrediction_confidence 0
    [⟨"fever", 5, 0⟩, ⟨"headache", 4, 0⟩, ⟨"muscle-aches", 4, 0⟩]
    (mkDiseasePrediction ["fever", "headache", "muscle-aches"] fluPattern)
    fluPrediction_mem rfl

/-- Inserting an element whose predicate-class members always compare `≤`
both ways commutes with `filter`: no element of the class is jumped over. -/
theorem filter_orderedInsert (p : Suggestion → Bool)
    (hp : ∀ x y, p x = true → p y = true → suggestionLE x y)
    (a : Suggestion) (l : List Suggestion) :
    (List.orderedInsert suggestionLE a l).filter p =
      if p a then a :: l.filter p else l.filter p := by
  induction l with
  | nil => cases hpa : p a <;> simp [List.orderedInsert, List.filter, hpa]
  | cons b l ih =>
    rw [show List.orderedInsert suggestionLE a (b :: l) =
      if suggestionLE a b then a :: b :: l else b :: List.orderedInsert suggestionLE a l from rfl]
    by_cases hab : suggestionLE a b
    · rw [if_pos hab]
      cases hpa : p a <;> cases hpb : p b <;> simp [List.filter_cons, hpa, hpb]
    · rw [if_neg hab]
      cases hpa : p a <;> cases hpb : p b <;>
        first
        | exact absurd (hp a b hpa hpb) hab
        | simp [List.filter_cons, hpa, hpb, ih]

/-- A sort by `orderedInsert` commutes with `filter` over a class of
mutually `≤`-comparable elements: the stable-sort subsequence property. -/
theorem filter_insertionSort (p : Suggestion → Bool)
    (hp : ∀ x y, p x = true → p y = true → suggestionLE x y)
    (l : List Suggestion) :
    (List.insertionSort suggestionLE l).filter p = l.filter p := by
  induction l with
  | nil => rfl
  | cons a l ih =>
    rw [List.insertionSort, filter_orderedInsert p hp, ih, List.filter_cons]

/-- Deduplication only discards elements: the result is a sublist. -/
theorem dedupByIdAux_sublist (seen : List String) (l : List Suggestion) :
    List.Sublist (dedupByIdAux seen l) l := by
  induction l generalizing seen with
  | nil => exact List.Sublist.refl _
  | cons a l ih =>
    rw [dedupByIdAux]
    split_ifs
    · exact (ih seen).cons a
    · exact (ih (a.id :: seen)).cons₂ a

/-- On a list whose ids avoid `seen` and are pairwise distinct,
deduplication is the identity. -/
theorem dedupByIdAux_eq_self (seen : List String) (l : List Suggestion)
    (hseen : ∀ s ∈ l, s.id ∉ seen)
    (hdist : l.Pairwise fun a b => a.id ≠ b.id) :
    dedupByIdAux seen l = l := by
  induction l generalizing seen with
  | nil => rfl
  | cons a l ih =>
    rw [List.pairwise_cons] at hdist
    rw [dedupByIdAux, if_neg (by simpa using hseen a (List.mem_cons_self a l))]
    rw [ih (a.id :: seen) ?_ hdist.2]
    intro s hsl
    rw [List.mem_cons]
    push_neg
    exact ⟨fun h => (hdist.1 s hsl) h.symm, hseen s (List.mem_cons_of_mem a hsl)⟩

/-- C6: `prioritizeAndFormat` output is sorted by priority rank
critical(0) < high(1) < medium(2) < low(3); within each priority class the
output is exactly the (deduplicated) input subsequence, so equal-priority
suggestions keep their submission order; deduplication keeps first
occurrences (a sublist of the input) and is the identity when ids are
pairwise distinct. -/
theorem prioritizeAndFormat_sorted_stable (l : List Suggestion)
    (_hval : ∀ s ∈ l, s.priority ∈ (["critical", "high", "medium", "low"] : List String)) :
    (prioritizeAndFormat l).Pairwise suggestionLE ∧
    (∀ p : String, (prioritizeAndFormat l).filter (fun s => s.priority == p) =
      (dedupById l).filter (fun s => s.priority == p)) ∧
    List.Sublist (dedupById l) l ∧
    (l.Pairwise (fun a b => a.id ≠ b.id) →
      ∀ p : String, (prioritizeAndFormat l).filter (fun s => s.priority == p) =
        l.filter (fun s => s.priority == p)) := by
  have hstable : ∀ p : String, (prioritizeAndFormat l).filter (fun s => s.priority == p) =
      (dedupById l).filter (fun s => s.priority == p) := by
    intro p
    apply filter_insertionSort
    intro x y hx hy
    have hx2 : x.priority = p := by simpa using hx
    have hy2 : y.priority = p := by simpa using hy
    unfold suggestionLE
    rw [hx2, hy2]
  refine ⟨List.sorted_insertionSort _ _, hstable, dedupByIdAux_sublist [] l, ?_⟩
  intro hdist p
  rw [hstable p, dedupById,
    dedupByIdAux_eq_self [] l (fun s _ => List.not_mem_nil s.id) hdist]

/-- Concrete input for exercising the sort: two `medium` suggestions in
submission order `a`, `b`, followed by one `critical` suggestion `c`. -/
def sortExampleList : List Suggestion :=
  [{ id := "a", title := "", description := "", priority := "medium", category := "x" },
   { id := "b", title := "", description := "", priority := "medium", category := "x" },
   { id := "c", title := "", description := "", priority := "critical", category := "x" }]

/-- C6 witness: on `sortExampleList` the output is rank-sorted and each
priority class keeps its submission order. -/
theorem prioritizeAndFormat_sorted_stable_witness :
    (prioritizeAndFormat sortExampleList).Pairwise suggestionLE ∧
    (∀ p : String, (prioritizeAndFormat sortExampleList).filter (fun s => s.priority == p) =
      (dedupById sortExampleList).filter (fun s => s.priority == p)) ∧
    List.Sublist (dedupById sortExampleList) sortExampleList ∧
    (sortExampleList.Pairwise (fun a b => a.id ≠ b.id) →
      ∀ p : String, (prioritizeAndFormat sortExampleList).filter (fun s => s.priority == p) =
        sortExampleList.filter (fun s => s.priority == p)) :=
  prioritizeAndFormat_sorted_stable sortExampleList (by decide)

/-- The head of the list survives both deduplication and sorting, so it is
a member of the `prioritizeAndFormat` output. -/
theorem mem_prioritizeAndFormat_head (x : Suggestion) (l : List Suggestion) :
    x ∈ prioritizeAndFormat (x :: l) := by
  unfold prioritizeAndFormat dedupById
  have h : dedupByIdAux [] (x :: l) = x :: dedupByIdAux [x.id] l := rfl
  rw [h, List.mem_insertionSort]
  exact List.mem_cons_self _ _

/-- C9: while the knowledge base is not loaded, the aggregator returns
exactly one placeholder suggestion, whose id is `loading`, for every
input. -/
theorem generateIntelligentSuggestions_loading (now : ℤ)
    (symptoms recentSymptoms : List SymptomRecord) :
    generateIntelligentSuggestions none now symptoms recentSymptoms = getBasicSuggestions ∧
    getBasicSuggestions.map (fun s => s.id) = ["loading"] ∧
    getBasicSuggestions.length = 1 :=
  ⟨rfl, rfl, rfl⟩

/-- C8: with any loaded knowledge base, fever (severity 5) plus headache
(severity 4), both logged within the last 7 days, yield the
`infection_pattern` suggestion with priority `high` and confidence 85. -/
theorem infection_pattern_example (hk : HealthKnowledge) (now t1 t2 : ℤ)
    (_h1 : now - 7 * 86400000 ≤ t1) (_h2 : now - 7 * 86400000 ≤ t2) :
    ∃ s ∈ generateIntelligentSuggestions (some hk) now
        [⟨"fever", 5, t1⟩, ⟨"headache", 4, t2⟩] [],
      s.id = "infection_pattern" ∧ s.priority = "high" ∧ s.confidence = some 85 := by
  refine ⟨infectionPatternSuggestion, ?_, rfl, rfl, rfl⟩
  have hstr : strIncludes "fever" "scratchy-throat" = false ∧
      strIncludes "scratchy-throat" "fever" = false ∧
      strIncludes "fever" "mild-cough" = false ∧
      strIncludes "mild-cough" "fever" = false ∧
      strIncludes "fever" "runny-nose" = false ∧
      strIncludes "runny-nose" "fever" = false ∧
      strIncludes "fever" "mild-nausea" = false ∧
      strIncludes "mild-nausea" "fever" = false ∧
      strIncludes "fever" "loss-of-appetite" = false ∧
      strIncludes "loss-of-appetite" "fever" = false ∧
      strIncludes "fever" "mild-abdominal-discomfort" = false ∧
      strIncludes "mild-abdominal-discomfort" "fever" = false ∧
      strIncludes "fever" "mild-headache" = false ∧
      strIncludes "mild-headache" "fever" = false ∧
      strIncludes "fever" "fatigue" = false ∧
      strIncludes "fatigue" "fever" = false ∧
      strIncludes "fever" "muscle-tension" = false ∧
      strIncludes "muscle-tension" "fever" = false ∧
      strIncludes "headache" "scratchy-throat" = false ∧
      strIncludes "scratchy-throat" "headache" = false ∧
      strIncludes "headache" "mild-cough" = false ∧
      strIncludes "mild-cough" "headache" = false ∧
      strIncludes "headache" "runny-nose" = false ∧
      strIncludes "runny-nose" "headache" = false ∧
      strIncludes "headache" "mild-nausea" = false ∧
      strIncludes "mild-nausea" "headache" = false ∧
      strIncludes "headache" "loss-of-appetite" = false ∧
      strIncludes "loss-of-appetite" "headache" = false ∧
      strIncludes "headache" "mild-abdominal-discomfort" = false ∧
      strIncludes "mild-abdominal-discomfort" "headache" = false ∧
      strIncludes "headache" "mild-headache" = false ∧
      strIncludes "mild-headache" "headache" = true ∧
      strIncludes "headache" "fatigue" = false ∧
      strIncludes "fatigue" "headache" = false ∧
      strIncludes "headache" "muscle-tension" = false ∧
      strIncludes "muscle-tension" "headache" = false := by
    decide
  have hearly : detectEarlySymptoms now [⟨"fever", 5, t1⟩, ⟨"headache", 4, t2⟩] = [] := by
    unfold detectEarlySymptoms
    cases hb1 : recentWithin 3 now ⟨"fever", 5, t1⟩ <;>
      cases hb2 : recentWithin 3 now ⟨"headache", 4, t2⟩ <;>
        simp [List.filter_cons, hb1, hb2, earlyMatches, getEarlyPatterns, hstr]
  have hcount : countMatches ["fever", "headache"] fluPattern.symptoms = 2 := by decide
  have hflu : ¬ (fluPattern.threshold ≤
      calculatePatternMatch ["fever", "headache"] fluPattern.symptoms) := by
    unfold calculatePatternMatch
    rw [hcount]
    norm_num [fluPattern]
  have hcold : countMatches ["fever", "headache"] coldPattern.symptoms = 1 := by decide
  have hmig : countMatches ["fever", "headache"] migrainePattern.symptoms = 1 := by decide
  have hgas : countMatches ["fever", "headache"] gastroenteritisPattern.symptoms = 1 := by decide
  have hpred : predictPotentialConditions now [⟨"fever", 5, t1⟩, ⟨"headache", 4, t2⟩] = [] := by
    unfold predictPotentialConditions
    rw [hearly]
    simp [getDiseasePatterns, List.filter_cons, hflu, hcount, hcold, hmig, hgas]
  have hem : assessEmergencySymptoms [⟨"fever", 5, t1⟩, ⟨"headache", 4, t2⟩] = [] := rfl
  have han : analyzeSymptomPatterns [⟨"fever", 5, t1⟩, ⟨"headache", 4, t2⟩] =
      [infectionPatternSuggestion] := rfl
  simp only [generateIntelligentSuggestions, List.append_nil]
  rw [hem, hpred, han]
  simp only [List.filter_nil, List.nil_append, List.cons_append]
  exact mem_prioritizeAndFormat_head _ _

/-- C8 witness: the default knowledge base, time 0, both records logged at
time 0. -/
theorem infection_pattern_example_witness :
    ∃ s ∈ generateIntelligentSuggestions (some getDefaultKnowledge) 0
        [⟨"fever", 5, 0⟩, ⟨"headache", 4, 0⟩] [],
      s.id = "infection_pattern" ∧ s.priority = "high" ∧ s.confidence = some 85 :=
  infection_pattern_example getDefaultKnowledge 0 0 0 (by decide) (by decide)

/-- Every member of the `prioritizeAndFormat` output is a member of its
input (deduplication and sorting add nothing). -/
theorem mem_of_mem_prioritizeAndFormat (l : List Suggestion) (s : Suggestion)
    (hs : s ∈ prioritizeAndFormat l) : s ∈ l := by
  unfold prioritizeAndFormat dedupById at hs
  rw [List.mem_insertionSort] at hs
  exact (dedupByIdAux_sublist [] l).subset hs

/-- Emergency suggestions always have category `emergency`. -/
theorem mem_assessEmergencySymptoms_category (l : List SymptomRecord) (s : Suggestion)
    (hs : s ∈ assessEmergencySymptoms l) : s.category = "emergency" := by
  simp only [assessEmergencySymptoms] at hs
  split_ifs at hs with h
  · rw [List.mem_singleton] at hs
    rw [hs]
  · exact absurd hs (List.not_mem_nil s)

/-- Combination-pattern suggestions always have category `diagnosis`. -/
theorem mem_analyzeSymptomPatterns_category (l : List SymptomRecord) (s : Suggestion)
    (hs : s ∈ analyzeSymptomPatterns l) : s.category = "diagnosis" := by
  simp only [analyzeSymptomPatterns, List.mem_append] at hs
  rcases hs with hs | hs <;> split_ifs at hs <;>
    first
    | exact absurd hs (List.not_mem_nil s)
    | · rw [List.mem_singleton] at hs
        rw [hs]
        rfl

/-- Management suggestions always have category `treatment`. -/
theorem mem_generateSymptomManagement_category (hk : HealthKnowledge)
    (l : List SymptomRecord) (s : Suggestion)
    (hs : s ∈ generateSymptomManagement hk l) : s.category = "treatment" := by
  simp only [generateSymptomManagement, List.mem_filterMap] at hs
  obtain ⟨a, _, ha⟩ := hs
  rw [Option.map_eq_some'] at ha
  obtain ⟨knowledge, _, hs⟩ := ha
  rw [← hs]

/-- Preventive-care suggestions always have id `preventive_care` and
category `prevention`. -/
theorem mem_generatePreventiveCare_shape (hk : HealthKnowledge)
    (l : List SymptomRecord) (s : Suggestion)
    (hs : s ∈ generatePreventiveCare hk l) :
    s.id = "preventive_care" ∧ s.category = "prevention" := by
  simp only [generatePreventiveCare] at hs
  split_ifs at hs with h
  · rw [List.mem_singleton] at hs
    rw [hs]
    exact ⟨rfl, rfl⟩
  · exact absurd hs (List.not_mem_nil s)

/-- Medication suggestions always have category `medication`. -/
theorem mem_generateMedicationSuggestions_category (hk : HealthKnowledge)
    (l : List SymptomRecord) (s : Suggestion)
    (hs : s ∈ generateMedicationSuggestions hk l) : s.category = "medication" := by
  simp only [generateMedicationSuggestions, List.mem_flatMap, List.mem_filterMap] at hs
  obtain ⟨a, _, m, _, hm⟩ := hs
  rw [Option.map_eq_some'] at hm
  obtain ⟨medInfo, _, hs⟩ := hm
  rw [← hs]

/-- C10: the aggregator drops every disease prediction with confidence
below 60 (every surviving category-`prediction` suggestion has confidence
at least 60), and a pattern meeting both emission gates can still be absent
from the final list: runny-nose+sneezing+sore-throat passes both cold
gates, yet no cold prediction survives. -/
theorem aggregator_drops_lowConfidence_predictions :
    (∀ (hk : HealthKnowledge) (now : ℤ) (symptoms recentSymptoms : List SymptomRecord),
      ∀ s ∈ generateIntelligentSuggestions (some hk) now symptoms recentSymptoms,
        s.category = "prediction" → ∀ c : ℤ, s.confidence = some c → 60 ≤ c) ∧
    (coldPattern.threshold ≤
        calculatePatternMatch ["runny-nose", "sneezing", "sore-throat"] coldPattern.symptoms ∧
      2 ≤ countMatches ["runny-nose", "sneezing", "sore-throat"] coldPattern.symptoms ∧
      ∀ s ∈ generateIntelligentSuggestions (some getDefaultKnowledge) 0
          [⟨"runny-nose", 3, 0⟩, ⟨"sneezing", 3, 0⟩, ⟨"sore-throat", 3, 0⟩] [],
        s.id ≠ "disease_prediction_cold") := by
  have hcoldc : countMatches ["runny-nose", "sneezing", "sore-throat"] coldPattern.symptoms = 3 :=
    by decide
  constructor
  · intro hk now symptoms recentSymptoms s hs hcat c hc
    simp only [generateIntelligentSuggestions] at hs
    have hmem := mem_of_mem_prioritizeAndFormat _ _ hs
    simp only [List.mem_append] at hmem
    rcases hmem with ((((h | h) | h) | h) | h) | h
    · have := mem_assessEmergencySymptoms_category _ _ h
      rw [hcat] at this
      exact absurd this (by decide)
    · rw [List.mem_filter] at h
      have h60 := of_decide_eq_true h.2
      rw [hc] at h60
      exact h60
    · have := mem_analyzeSymptomPatterns_category _ _ h
      rw [hcat] at this
      exact absurd this (by decide)
    · have := mem_generateSymptomManagement_category _ _ _ (List.mem_of_mem_filter h)
      rw [hcat] at this
      exact absurd this (by decide)
    · have := (mem_generatePreventiveCare_shape _ _ _ h).2
      rw [hcat] at this
      exact absurd this (by decide)
    · have := mem_generateMedicationSuggestions_category _ _ _ h
      rw [hcat] at this
      exact absurd this (by decide)
  · refine ⟨?_, by rw [hcoldc]; norm_num, ?_⟩
    · unfold calculatePatternMatch
      rw [hcoldc]
      norm_num [coldPattern]
    · intro s hs
      have hfluc : countMatches ["runny-nose", "sneezing", "sore-throat"]
          fluPattern.symptoms = 0 := by decide
      have hmigc : countMatches ["runny-nose", "sneezing", "sore-throat"]
          migrainePattern.symptoms = 0 := by decide
      have hgasc : countMatches ["runny-nose", "sneezing", "sore-throat"]
          gastroenteritisPattern.symptoms = 0 := by decide
      have hcoldthr : coldPattern.threshold ≤
          calculatePatternMatch ["runny-nose", "sneezing", "sore-throat"] coldPattern.symptoms := by
        unfold calculatePatternMatch
        rw [hcoldc]
        norm_num [coldPattern]
      have hearly10 : detectEarlySymptoms 0
          [⟨"runny-nose", 3, 0⟩, ⟨"sneezing", 3, 0⟩, ⟨"sore-throat", 3, 0⟩] = [] := by decide
      have hpred : predictPotentialConditions 0
          [⟨"runny-nose", 3, 0⟩, ⟨"sneezing", 3, 0⟩, ⟨"sore-throat", 3, 0⟩] =
          [mkDiseasePrediction ["runny-nose", "sneezing", "sore-throat"] coldPattern] := by
        unfold predictPotentialConditions
        rw [hearly10]
        simp [getDiseasePatterns, List.filter_cons, hfluc, hcoldc, hmigc, hgasc, hcoldthr]
      have hconf : round (min 95
          (calculatePatternMatch ["runny-nose", "sneezing", "sore-throat"] coldPattern.symptoms *
            coldPattern.confidenceMultiplier)) = 48 := by
        unfold calculatePatternMatch
        rw [hcoldc]
        norm_num [coldPattern, round_eq]
      have hfilter : (predictPotentialConditions 0
          [⟨"runny-nose", 3, 0⟩, ⟨"sneezing", 3, 0⟩, ⟨"sore-throat", 3, 0⟩]).filter
            (fun s => decide (60 ≤ s.confidence.getD 0)) = [] := by
        rw [hpred]
        simp only [List.filter_cons, List.filter_nil, mkDiseasePrediction, Option.getD_some,
          hconf]
        norm_num
      simp only [generateIntelligentSuggestions, List.append_nil] at hs
      rw [hfilter] at hs
      have hmem := mem_of_mem_prioritizeAndFormat _ _ hs
      simp only [List.mem_append] at hmem
      rcases hmem with ((((h | h) | h) | h) | h) | h
      · rw [show assessEmergencySymptoms
            [⟨"runny-nose", 3, 0⟩, ⟨"sneezing", 3, 0⟩, ⟨"sore-throat", 3, 0⟩] = [] from rfl] at h
        exact absurd h (List.not_mem_nil s)
      · exact absurd h (List.not_mem_nil s)
      · rw [show analyzeSymptomPatterns
            [⟨"runny-nose", 3, 0⟩, ⟨"sneezing", 3, 0⟩, ⟨"sore-throat", 3, 0⟩] = [] from rfl] at h
        exact absurd h (List.not_mem_nil s)
      · rw [show (generateSymptomManagement getDefaultKnowledge
            [⟨"runny-nose", 3, 0⟩, ⟨"sneezing", 3, 0⟩, ⟨"sore-throat", 3, 0⟩]).filter
              (fun s => decide (s.priority ≠ "low") || decide (70 ≤ s.confidence.getD 0)) = []
            from rfl] at h
        exact absurd h (List.not_mem_nil s)
      · rw [(mem_generatePreventiveCare_shape _ _ _ h).1]
        decide
      · rw [show generateMedicationSuggestions getDefaultKnowledge
            [⟨"runny-nose", 3, 0⟩, ⟨"sneezing", 3, 0⟩, ⟨"sore-throat", 3, 0⟩] = [] from rfl] at h
        exact absurd h (List.not_mem_nil s)
